import Mathlib

/-!
Verification of the ezan-go daily adhan scheduler (`src/ezan.go`).

The Go program is shallowly embedded: external collaborators (the TOML
decoder, the adhango prayer-time calculator, the coordinate validator, the
beep audio stack) are passed in as explicit result oracles of type
`Except`, while every piece of control flow and state manipulation that the
repository itself performs (`updatePrayerTimes`, `scheduleAdhan`,
`onUpdateSettings`, `loadConfig`, `getVolumeForPrayer`, the gin settings
handler, the playback closure registered by `scheduleAdhan`) is translated
directly from the source.

The gocron scheduler is modelled as a list of jobs in registration order;
`RemoveByTag` keeps exactly the jobs not carrying the tag, and registering
a job appends it.  `time.Time` values are modelled as absolute seconds;
`Format "15:04:05"`, used by `scheduleAdhan` to produce the trigger
time-of-day, becomes reduction modulo 86400.
-/

/-- The nested `Volume` struct of `Config` in `src/ezan.go` (float64 fields
modelled as rationals). -/
structure VolumeConfig where
  fajr : ℚ
  dhuhr : ℚ
  asr : ℚ
  maghrib : ℚ
  isha : ℚ
  adhanPrayer : ℚ
  sela : ℚ
deriving DecidableEq

/-- The `Config` struct of `src/ezan.go`. -/
structure Config where
  lan : ℚ
  lon : ℚ
  calculationMethod : String
  adhanPrayer : Bool
  volume : VolumeConfig
deriving DecidableEq

/-- A validated coordinate pair, as produced by `util.NewCoordinates`. -/
structure Coordinates where
  latitude : ℚ
  longitude : ℚ
deriving DecidableEq

/-- The five prayer times of one day as computed by `calc.NewPrayerTimes`
(after `SetTimeZone`), in absolute seconds. -/
structure PrayerTimes where
  fajr : Nat
  dhuhr : Nat
  asr : Nat
  maghrib : Nat
  isha : Nat
deriving DecidableEq

/-- One gocron job: its tag (`""` when untagged), the announcement name its
closure captures, its trigger time-of-day in seconds (what
`At(t.Format "15:04:05")` records), and its run limit (`some 1` for
`LimitRunsTo(1)` one-shot jobs, `none` for unlimited jobs). -/
structure Job where
  tag : String
  name : String
  timeOfDay : Nat
  runLimit : Option Nat
deriving DecidableEq

/-- `time.Time.Format "15:04:05"`: the time-of-day a trigger is registered
at, at seconds precision. -/
def formatClock (t : Nat) : Nat := t % 86400

/-- `scheduler.RemoveByTag tag`: drop exactly the jobs carrying `tag`. -/
def removeByTag (tag : String) (s : List Job) : List Job :=
  s.filter (fun j => !(j.tag == tag))

/-- The job registered by `scheduleAdhan` for `prayerName` at `prayerTime`:
tagged `"adhan"`, one-shot, triggered at the formatted time-of-day. -/
def mkAdhanJob (prayerName : String) (prayerTime : Nat) : Job :=
  { tag := "adhan", name := prayerName, timeOfDay := formatClock prayerTime,
    runLimit := some 1 }

/-- `scheduleAdhan` from `src/ezan.go`: registers a one-shot job tagged
`"adhan"` at the prayer time's clock time (seconds precision). -/
def scheduleAdhan (s : List Job) (prayerName : String) (prayerTime : Nat) :
    List Job :=
  s ++ [mkAdhanJob prayerName prayerTime]

/-- `updatePrayerTimes` from `src/ezan.go`.  `computeRes` is the outcome of
`calc.NewPrayerTimes` and `tzRes` the outcome of `SetTimeZone`; on either
error the function logs and returns with the scheduler untouched, otherwise
it removes the jobs tagged `"adhan"` and registers the five prayer jobs. -/
def updatePrayerTimes (computeRes : Except String PrayerTimes)
    (tzRes : PrayerTimes → Except String PrayerTimes) (s : List Job) :
    List Job :=
  match computeRes with
  | Except.error _ => s
  | Except.ok pt0 =>
    match tzRes pt0 with
    | Except.error _ => s
    | Except.ok pt =>
      let s1 := removeByTag "adhan" s
      let s2 := scheduleAdhan s1 "fajr" pt.fajr
      let s3 := scheduleAdhan s2 "dhuhr" pt.dhuhr
      let s4 := scheduleAdhan s3 "asr" pt.asr
      let s5 := scheduleAdhan s4 "maghrib" pt.maghrib
      scheduleAdhan s5 "isha" pt.isha

/-- Outcome of `toml.DecodeFile "config.toml" &config`, which decodes IN
PLACE into the live global.  The library parses the whole document before
unifying it into the struct, so a TOML-syntax failure mutates nothing; but
a unification failure (e.g. a type mismatch on one key) is raised after the
earlier keys were already written, leaving the global at some partially
overwritten value, carried by `unifyError`. -/
inductive DecodeOutcome where
  | parseError (e : String)
  | unifyError (e : String) (leftAt : Config)
  | ok (c : Config)

/-- `loadConfig` from `src/ezan.go`: run the in-place decode and wrap any
error.  The pair is (returned error value, global config after the call);
given `cfg` the global before it. -/
def loadConfig (decodeRes : DecodeOutcome) (cfg : Config) :
    Except String Unit × Config :=
  match decodeRes with
  | DecodeOutcome.parseError e =>
    (Except.error ("error loading config: " ++ e), cfg)
  | DecodeOutcome.unifyError e c =>
    (Except.error ("error loading config: " ++ e), c)
  | DecodeOutcome.ok c => (Except.ok (), c)

/-- The process-wide mutable state of `src/ezan.go`: the global `config`,
the global `coordinates` pointer (`none` models nil), and the scheduler's
job list. -/
structure SysState where
  config : Config
  coordinates : Option Coordinates
  sched : List Job
deriving DecidableEq

/-- `onUpdateSettings` from `src/ezan.go`: reload the config (on failure
log and return), refresh the coordinates (on failure the global pointer has
already been overwritten with nil; log and return), then remove the jobs
tagged `"adhan"` and run `updatePrayerTimes`. -/
def onUpdateSettings (decodeRes : DecodeOutcome)
    (coordRes : Config → Except String Coordinates)
    (computeRes : Except String PrayerTimes)
    (tzRes : PrayerTimes → Except String PrayerTimes)
    (st : SysState) : SysState :=
  match loadConfig decodeRes st.config with
  | (Except.error _, cfg) => { st with config := cfg }
  | (Except.ok _, cfg) =>
    match coordRes cfg with
    | Except.error _ => { st with config := cfg, coordinates := none }
    | Except.ok coords =>
      { config := cfg, coordinates := some coords,
        sched := updatePrayerTimes computeRes tzRes
                   (removeByTag "adhan" st.sched) }

/-- The jobs currently tagged as the daily group. -/
def adhanJobs (s : List Job) : List Job :=
  s.filter (fun j => j.tag == "adhan")

/-- Daily-group jobs survive `removeByTag "adhan"` never. -/
theorem adhanJobs_removeByTag (s : List Job) :
    adhanJobs (removeByTag "adhan" s) = [] := by
  induction s with
  | nil => rfl
  | cons j rest ih =>
    cases h : j.tag == "adhan" with
    | false =>
      have h1 : removeByTag "adhan" (j :: rest) =
          j :: removeByTag "adhan" rest := by simp [removeByTag, h]
      rw [h1]
      have h2 : adhanJobs (j :: removeByTag "adhan" rest) =
          adhanJobs (removeByTag "adhan" rest) := by simp [adhanJobs, h]
      rw [h2]
      exact ih
    | true =>
      have h1 : removeByTag "adhan" (j :: rest) =
          removeByTag "adhan" rest := by simp [removeByTag, h]
      rw [h1]
      exact ih

/-- On a successful computation, `updatePrayerTimes` is removal of the old
daily group followed by registration of the five fresh jobs. -/
theorem updatePrayerTimes_ok (pt0 pt : PrayerTimes)
    (tzRes : PrayerTimes → Except String PrayerTimes)
    (htz : tzRes pt0 = Except.ok pt) (s : List Job) :
    updatePrayerTimes (Except.ok pt0) tzRes s =
      removeByTag "adhan" s ++
        [mkAdhanJob "fajr" pt.fajr, mkAdhanJob "dhuhr" pt.dhuhr,
         mkAdhanJob "asr" pt.asr, mkAdhanJob "maghrib" pt.maghrib,
         mkAdhanJob "isha" pt.isha] := by
  simp [updatePrayerTimes, htz, scheduleAdhan]

/-- The daily group after a successful rebuild is exactly the five fresh
jobs. -/
theorem adhanJobs_updatePrayerTimes_ok (pt0 pt : PrayerTimes)
    (tzRes : PrayerTimes → Except String PrayerTimes)
    (htz : tzRes pt0 = Except.ok pt) (s : List Job) :
    adhanJobs (updatePrayerTimes (Except.ok pt0) tzRes s) =
      [mkAdhanJob "fajr" pt.fajr, mkAdhanJob "dhuhr" pt.dhuhr,
       mkAdhanJob "asr" pt.asr, mkAdhanJob "maghrib" pt.maghrib,
       mkAdhanJob "isha" pt.isha] := by
  rw [updatePrayerTimes_ok pt0 pt tzRes htz s]
  have h := adhanJobs_removeByTag s
  simp only [adhanJobs] at h ⊢
  simp [List.filter_append, h, mkAdhanJob]

/-- A concrete config used to instantiate theorems on explicit inputs. -/
def cfgEx : Config :=
  { lan := 52, lon := 13, calculationMethod := "TURKEY", adhanPrayer := true,
    volume := { fajr := 60, dhuhr := 70, asr := 80, maghrib := 90, isha := 100,
                adhanPrayer := 50, sela := 40 } }

/-- A concrete validated coordinate pair. -/
def coordsEx : Coordinates := { latitude := 52, longitude := 13 }

/-- A concrete computed prayer schedule (times in seconds of the day). -/
def ptEx : PrayerTimes :=
  { fajr := 19800, dhuhr := 46800, asr := 56700, maghrib := 66600,
    isha := 72000 }

/-- The always-armed untagged midnight job registered in `main` at
`"00:00"`, whose closure reruns `updatePrayerTimes`. -/
def midnightJob : Job :=
  { tag := "", name := "midnightRebuild", timeOfDay := 0, runLimit := none }

/-- A concrete system state with one armed daily-group job. -/
def stEx : SysState :=
  { config := cfgEx, coordinates := some coordsEx,
    sched := [midnightJob, mkAdhanJob "fajr" 18000] }

/-- C1 fails as stated: in the settings-triggered `onUpdateSettings` path
the daily group is removed before the prayer-time computation runs, so a
computation failure there leaves the daily group empty, not equal to the
previously armed set. -/
theorem onUpdateSettings_computeError_drops_daily_group :
    adhanJobs ((onUpdateSettings (DecodeOutcome.ok cfgEx)
        (fun _ => Except.ok coordsEx)
        (Except.error "compute failed") (fun pt => Except.ok pt) stEx).sched) = []
    ∧ adhanJobs stEx.sched ≠ [] := by
  constructor
  · rfl
  · intro h
    simp [stEx, adhanJobs, midnightJob, mkAdhanJob] at h

/-- C1 amended: a computation failure inside `updatePrayerTimes` (either
of `calc.NewPrayerTimes` or of `SetTimeZone`) leaves the scheduler exactly
unchanged, which covers the midnight-triggered and process-start rebuilds;
but the settings-triggered path removes the daily group before computing,
so there a computation failure — whether `calc.NewPrayerTimes` or
`SetTimeZone` fails — leaves the daily group empty and keeps only the
untagged jobs. -/
theorem rebuild_computeError_behavior :
    (∀ (e : String) (tzRes : PrayerTimes → Except String PrayerTimes)
        (s : List Job), updatePrayerTimes (Except.error e) tzRes s = s)
    ∧ (∀ (pt0 : PrayerTimes) (e : String)
        (tzRes : PrayerTimes → Except String PrayerTimes) (s : List Job),
        tzRes pt0 = Except.error e →
        updatePrayerTimes (Except.ok pt0) tzRes s = s)
    ∧ (∀ (cfg : Config) (coordRes : Config → Except String Coordinates)
        (coords : Coordinates) (e : String)
        (tzRes : PrayerTimes → Except String PrayerTimes) (st : SysState),
        coordRes cfg = Except.ok coords →
        (onUpdateSettings (DecodeOutcome.ok cfg) coordRes (Except.error e)
            tzRes st).sched = removeByTag "adhan" st.sched
        ∧ adhanJobs ((onUpdateSettings (DecodeOutcome.ok cfg) coordRes
            (Except.error e) tzRes st).sched) = [])
    ∧ (∀ (cfg : Config) (coordRes : Config → Except String Coordinates)
        (coords : Coordinates) (pt0 : PrayerTimes) (e : String)
        (tzRes : PrayerTimes → Except String PrayerTimes) (st : SysState),
        coordRes cfg = Except.ok coords → tzRes pt0 = Except.error e →
        (onUpdateSettings (DecodeOutcome.ok cfg) coordRes (Except.ok pt0)
            tzRes st).sched = removeByTag "adhan" st.sched
        ∧ adhanJobs ((onUpdateSettings (DecodeOutcome.ok cfg) coordRes
            (Except.ok pt0) tzRes st).sched) = []) := by
  refine ⟨fun e tzRes s => rfl, fun pt0 e tzRes s htz => ?_, ?_, ?_⟩
  · simp [updatePrayerTimes, htz]
  · intro cfg coordRes coords e tzRes st hc
    have h : (onUpdateSettings (DecodeOutcome.ok cfg) coordRes
        (Except.error e) tzRes st).sched = removeByTag "adhan" st.sched := by
      simp [onUpdateSettings, loadConfig, hc, updatePrayerTimes]
    refine ⟨h, ?_⟩
    rw [h]
    exact adhanJobs_removeByTag st.sched
  · intro cfg coordRes coords pt0 e tzRes st hc htz
    have h : (onUpdateSettings (DecodeOutcome.ok cfg) coordRes
        (Except.ok pt0) tzRes st).sched = removeByTag "adhan" st.sched := by
      simp [onUpdateSettings, loadConfig, hc, updatePrayerTimes, htz]
    refine ⟨h, ?_⟩
    rw [h]
    exact adhanJobs_removeByTag st.sched

/-- Witness for `rebuild_computeError_behavior` at concrete inputs. -/
theorem rebuild_computeError_behavior_witness :
    updatePrayerTimes (Except.error "boom") (fun pt => Except.ok pt)
        stEx.sched = stEx.sched
    ∧ (onUpdateSettings (DecodeOutcome.ok cfgEx) (fun _ => Except.ok coordsEx)
        (Except.error "boom") (fun pt => Except.ok pt) stEx).sched =
          removeByTag "adhan" stEx.sched
    ∧ (onUpdateSettings (DecodeOutcome.ok cfgEx) (fun _ => Except.ok coordsEx)
        (Except.ok ptEx) (fun _ => Except.error "tz failed") stEx).sched =
          removeByTag "adhan" stEx.sched := by
  refine ⟨rebuild_computeError_behavior.1 "boom" (fun pt => Except.ok pt)
      stEx.sched, ?_, ?_⟩
  · exact (rebuild_computeError_behavior.2.2.1 cfgEx
      (fun _ => Except.ok coordsEx) coordsEx "boom" (fun pt => Except.ok pt)
      stEx rfl).1
  · exact (rebuild_computeError_behavior.2.2.2 cfgEx
      (fun _ => Except.ok coordsEx) coordsEx ptEx "tz failed"
      (fun _ => Except.error "tz failed") stEx rfl rfl).1

/-- C2: after a successful rebuild the daily group is exactly the five
one-shot jobs, one per announcement name, each triggered at the freshly
computed schedule's clock time, and nothing previously tagged survives. -/
theorem updatePrayerTimes_success_daily_group (pt0 pt : PrayerTimes)
    (computeRes : Except String PrayerTimes)
    (tzRes : PrayerTimes → Except String PrayerTimes) (s : List Job)
    (hcompute : computeRes = Except.ok pt0) (htz : tzRes pt0 = Except.ok pt) :
    adhanJobs (updatePrayerTimes computeRes tzRes s) =
      [{ tag := "adhan", name := "fajr", timeOfDay := formatClock pt.fajr,
         runLimit := some 1 },
       { tag := "adhan", name := "dhuhr", timeOfDay := formatClock pt.dhuhr,
         runLimit := some 1 },
       { tag := "adhan", name := "asr", timeOfDay := formatClock pt.asr,
         runLimit := some 1 },
       { tag := "adhan", name := "maghrib", timeOfDay := formatClock pt.maghrib,
         runLimit := some 1 },
       { tag := "adhan", name := "isha", timeOfDay := formatClock pt.isha,
         runLimit := some 1 }] := by
  subst hcompute
  simpa [mkAdhanJob] using adhanJobs_updatePrayerTimes_ok pt0 pt tzRes htz s

/-- Witness for `updatePrayerTimes_success_daily_group` on a concrete
schedule and a scheduler holding a stale daily job. -/
theorem updatePrayerTimes_success_daily_group_witness :
    (Except.ok ptEx : Except String PrayerTimes) = Except.ok ptEx
    ∧ adhanJobs (updatePrayerTimes (Except.ok ptEx) (fun pt => Except.ok pt)
        [midnightJob, mkAdhanJob "fajr" 18000]) =
      [{ tag := "adhan", name := "fajr", timeOfDay := formatClock ptEx.fajr,
         runLimit := some 1 },
       { tag := "adhan", name := "dhuhr", timeOfDay := formatClock ptEx.dhuhr,
         runLimit := some 1 },
       { tag := "adhan", name := "asr", timeOfDay := formatClock ptEx.asr,
         runLimit := some 1 },
       { tag := "adhan", name := "maghrib", timeOfDay := formatClock ptEx.maghrib,
         runLimit := some 1 },
       { tag := "adhan", name := "isha", timeOfDay := formatClock ptEx.isha,
         runLimit := some 1 }] :=
  ⟨rfl, updatePrayerTimes_success_daily_group ptEx ptEx (Except.ok ptEx)
    (fun pt => Except.ok pt) [midnightJob, mkAdhanJob "fajr" 18000] rfl rfl⟩

/-- `getVolumeForPrayer` from `src/ezan.go`: the per-announcement volume
switch, defaulting to 100 for `"test"` and unknown names. -/
def getVolumeForPrayer (cfg : Config) (prayerType : String) : ℚ :=
  if prayerType = "fajr" then cfg.volume.fajr
  else if prayerType = "dhuhr" then cfg.volume.dhuhr
  else if prayerType = "asr" then cfg.volume.asr
  else if prayerType = "maghrib" then cfg.volume.maghrib
  else if prayerType = "isha" then cfg.volume.isha
  else if prayerType = "prayer" then cfg.volume.adhanPrayer
  else if prayerType = "sela" then cfg.volume.sela
  else 100

/-- The seven announcement names carrying a configured volume. -/
def configuredVolumeNames : List String :=
  ["fajr", "dhuhr", "asr", "maghrib", "isha", "prayer", "sela"]

/-- C10: every name outside the seven configured ones — `"test"` and any
unknown name included — gets the default volume 100. -/
theorem getVolumeForPrayer_default (cfg : Config) (s : String)
    (h : s ∉ configuredVolumeNames) : getVolumeForPrayer cfg s = 100 := by
  simp only [configuredVolumeNames, List.mem_cons, List.not_mem_nil, or_false,
    not_or] at h
  obtain ⟨h1, h2, h3, h4, h5, h6, h7⟩ := h
  simp [getVolumeForPrayer, h1, h2, h3, h4, h5, h6, h7]

/-- Witness for `getVolumeForPrayer_default` at the diagnostic name. -/
theorem getVolumeForPrayer_default_witness :
    "test" ∉ configuredVolumeNames ∧ getVolumeForPrayer cfgEx "test" = 100 :=
  ⟨by decide, getVolumeForPrayer_default cfgEx "test" (by decide)⟩

/-- Outcome of one `playAudio` call, distinguishing the three failure exits
of `src/ezan.go` (file open, MP3 decode, speaker init). -/
inductive PlayResult where
  | ok
  | openErr
  | decodeErr
  | deviceErr
deriving DecidableEq

/-- Whether a `playAudio` call returned a nil error. -/
def PlayResult.isOk : PlayResult → Bool
  | PlayResult.ok => true
  | _ => false

/-- The `audioFiles` map of `src/ezan.go` (Go map lookup on a missing key
yields the zero value `""`). -/
def audioFiles (name : String) : String :=
  if name = "fajr" then "audio/ezan1.mp3"
  else if name = "dhuhr" then "audio/ezan2.mp3"
  else if name = "asr" then "audio/ezan3.mp3"
  else if name = "maghrib" then "audio/ezan4.mp3"
  else if name = "isha" then "audio/ezan5.mp3"
  else if name = "test" then "audio/test.mp3"
  else if name = "prayer" then "audio/prayer.mp3"
  else if name = "sela" then "audio/sela.mp3"
  else ""

/-- Observable actions of the playback closure registered by
`scheduleAdhan`: a `playAudio` call (file, audio type, outcome) or one of
the two `log.Printf` error lines. -/
inductive ChainEvent where
  | play (file : String) (audioType : String) (result : PlayResult)
  | logPlayError (prayerName : String)
  | logPrayerError (prayerName : String)
deriving DecidableEq

/-- The closure `scheduleAdhan` registers with `Do` in `src/ezan.go`: play
the primary file; on failure log and return; otherwise, when the name is
not `"test"` and `config.AdhanPrayer` holds, play the prayer sound and log
its failure without unwinding. -/
def adhanJobBody (adhanPrayerEnabled : Bool) (prayerName : String)
    (primary secondary : PlayResult) : List ChainEvent :=
  if primary.isOk then
    ChainEvent.play (audioFiles prayerName) prayerName primary ::
      (if prayerName ≠ "test" ∧ adhanPrayerEnabled = true then
        ChainEvent.play (audioFiles "prayer") "prayer" secondary ::
          (if secondary.isOk then [] else
            [ChainEvent.logPrayerError prayerName])
      else [])
  else
    [ChainEvent.play (audioFiles prayerName) prayerName primary,
     ChainEvent.logPlayError prayerName]

/-- Whether any playback happened after the primary attempt (the first
event of the chain). -/
def playedSecondaryAfterPrimary (events : List ChainEvent) : Bool :=
  (events.drop 1).any fun e =>
    match e with
    | ChainEvent.play _ _ _ => true
    | _ => false

/-- The five real announcement names scheduled by `updatePrayerTimes` —
the only names the program ever registers playback-chain jobs for. -/
def realAnnouncementNames : List String :=
  ["fajr", "dhuhr", "asr", "maghrib", "isha"]

/-- Firing one adhan job: the closure only plays audio and logs, so the
process-wide state is returned untouched alongside the events. -/
def fireAdhanJob (st : SysState) (j : Job) (primary secondary : PlayResult) :
    SysState × List ChainEvent :=
  (st, adhanJobBody st.config.adhanPrayer j.name primary secondary)

/-- C4: for every playback-chain invocation the program creates (its name
is one of the five real announcement names), the secondary sound is played
right after the primary exactly when the primary succeeded and the
secondary-announcement flag is on — which, under the name hypothesis, is
the claimed three-way conjunction. -/
theorem secondary_played_iff (flag : Bool) (n : String)
    (primary secondary : PlayResult) (hn : n ∈ realAnnouncementNames) :
    playedSecondaryAfterPrimary (adhanJobBody flag n primary secondary) = true
      ↔ (primary.isOk = true ∧ n ∈ realAnnouncementNames ∧ flag = true) := by
  have hne : n ≠ "test" := by
    intro hcontra
    subst hcontra
    simp [realAnnouncementNames] at hn
  cases hp : primary.isOk with
  | false =>
    simp [adhanJobBody, hp, playedSecondaryAfterPrimary]
  | true =>
    cases flag with
    | false => simp [adhanJobBody, hp, playedSecondaryAfterPrimary]
    | true =>
      cases hs : secondary.isOk <;>
        simp [adhanJobBody, hp, hs, hne, playedSecondaryAfterPrimary, hn]

/-- Witness for `secondary_played_iff` at a concrete invocation. -/
theorem secondary_played_iff_witness :
    "fajr" ∈ realAnnouncementNames
    ∧ (playedSecondaryAfterPrimary
        (adhanJobBody true "fajr" PlayResult.ok PlayResult.ok) = true
      ↔ (PlayResult.ok.isOk = true ∧ "fajr" ∈ realAnnouncementNames
          ∧ (true : Bool) = true)) :=
  ⟨by decide, secondary_played_iff true "fajr" PlayResult.ok PlayResult.ok
    (by decide)⟩

/-- C7: when the primary playback fails, the chain logs the failure and
returns after exactly the primary attempt — no secondary playback — and
firing the job leaves the process state (config, coordinates, scheduler)
untouched. -/
theorem primary_failure_aborts_chain (flag : Bool) (n : String)
    (primary secondary : PlayResult) (st : SysState) (j : Job)
    (hp : primary.isOk = false) :
    adhanJobBody flag n primary secondary =
      [ChainEvent.play (audioFiles n) n primary, ChainEvent.logPlayError n]
    ∧ playedSecondaryAfterPrimary (adhanJobBody flag n primary secondary)
        = false
    ∧ (fireAdhanJob st j primary secondary).1 = st := by
  refine ⟨?_, ?_, rfl⟩
  · simp [adhanJobBody, hp]
  · simp [adhanJobBody, hp, playedSecondaryAfterPrimary]

/-- Witness for `primary_failure_aborts_chain` at a concrete decode
failure. -/
theorem primary_failure_aborts_chain_witness :
    PlayResult.decodeErr.isOk = false
    ∧ adhanJobBody true "fajr" PlayResult.decodeErr PlayResult.ok =
        [ChainEvent.play (audioFiles "fajr") "fajr" PlayResult.decodeErr,
         ChainEvent.logPlayError "fajr"]
    ∧ playedSecondaryAfterPrimary
        (adhanJobBody true "fajr" PlayResult.decodeErr PlayResult.ok) = false
    ∧ (fireAdhanJob stEx (mkAdhanJob "fajr" 18000) PlayResult.decodeErr
        PlayResult.ok).1 = stEx :=
  ⟨rfl, primary_failure_aborts_chain true "fajr" PlayResult.decodeErr
    PlayResult.ok stEx (mkAdhanJob "fajr" 18000) rfl⟩

/-- The gain applied by `playAudio` in `src/ezan.go`: beep's
`effects.Volume` with `Base = 2` multiplies the decoded amplitude by
`Base ^ Volume`, and the exponent is `-4 + volume/100*4`, the linear
rescale of the percentage onto `[-4, 0]`. -/
noncomputable def volumeGain (volume : ℝ) : ℝ :=
  (2 : ℝ) ^ (-4 + volume / 100 * 4)

/-- Modelled from the spec: the audibility threshold below which an output
amplitude counts as a floor near silence.  The code's own comment documents
the 0% endpoint as "silence (very low volume, -4 is approximately -96dB)";
at amplitude base 2 a −96 dB multiplier is `2 ^ (-16)` (since
20·log10(2^(-16)) ≈ −96.3 dB), so that value is taken as the near-silence
level the spec and the comment both refer to. -/
noncomputable def audibilityThreshold : ℝ := (2 : ℝ) ^ (-16 : ℝ)

/-- C5: the percentage-to-amplitude gain mapping is monotone on `[0, 100]`:
a lower volume never yields a larger amplitude multiplier. -/
theorem volumeGain_monotone (v1 v2 : ℝ) (h0 : 0 ≤ v1) (h12 : v1 < v2)
    (h100 : v2 ≤ 100) : volumeGain v1 ≤ volumeGain v2 := by
  unfold volumeGain
  apply Real.rpow_le_rpow_of_exponent_le (by norm_num)
  linarith

/-- Witness for `volumeGain_monotone` at concrete volumes. -/
theorem volumeGain_monotone_witness :
    (0 : ℝ) ≤ 25 ∧ (25 : ℝ) < 75 ∧ (75 : ℝ) ≤ 100
    ∧ volumeGain 25 ≤ volumeGain 75 :=
  ⟨by norm_num, by norm_num, by norm_num,
    volumeGain_monotone 25 75 (by norm_num) (by norm_num) (by norm_num)⟩

/-- C6 fails on the code at volume 0: volume 100 does yield unity gain, but
volume 0 yields the floor `2 ^ (-4) = 1/16` (≈ −24 dB, plainly audible),
which lies strictly ABOVE the ≈ −96 dB near-silence threshold that the claim
and the code's own comment describe — the comment's "-96dB" would require
exponent −16 where the code produces −4. -/
theorem volumeGain_floor_not_silent :
    volumeGain 100 = 1 ∧ volumeGain 0 = 1 / 16
    ∧ audibilityThreshold < volumeGain 0 := by
  have h100 : volumeGain 100 = 1 := by
    unfold volumeGain
    rw [show (-4 + (100 : ℝ) / 100 * 4) = 0 by norm_num]
    exact Real.rpow_zero 2
  have h0 : volumeGain 0 = 1 / 16 := by
    unfold volumeGain
    rw [show (-4 + (0 : ℝ) / 100 * 4) = ((-4 : ℤ) : ℝ) by norm_num,
      Real.rpow_intCast]
    norm_num
  refine ⟨h100, h0, ?_⟩
  rw [h0]
  unfold audibilityThreshold
  rw [show ((-16 : ℝ)) = ((-16 : ℤ) : ℝ) by norm_num, Real.rpow_intCast]
  norm_num

/-- A value of the untyped settings document (what gin's `BindJSON` and
`toml.Decode` into `map[string]interface` produce). -/
inductive JVal where
  | num (q : ℚ)
  | str (s : String)
  | bool (b : Bool)
  | obj (fields : List (String × JVal))

/-- Set `k` to `v` in an untyped document, replacing an existing entry or
appending a new one — Go's `m[k] = v`. -/
def setKey : List (String × JVal) → String → JVal → List (String × JVal)
  | [], k, v => [(k, v)]
  | (k', v') :: rest, k, v =>
    if k' = k then (k, v) :: rest else (k', v') :: setKey rest k v

/-- Look `k` up in an untyped document — Go's `m[k]`. -/
def lookupKey : List (String × JVal) → String → Option JVal
  | [], _ => none
  | (k', v') :: rest, k => if k' = k then some v' else lookupKey rest k

/-- The inner loop of the handler's volume case: write every entry of the
update's volume object into the stored volume object. -/
def mergeVolume (cv vu : List (String × JVal)) : List (String × JVal) :=
  vu.foldl (fun acc p => setKey acc p.1 p.2) cv

/-- One iteration of the handler's update loop: the `"volume"` key merges
object-into-object (and is silently skipped when either side is not an
object), every other key overwrites the top-level entry. -/
def applyUpdate (cur : List (String × JVal)) (k : String) (v : JVal) :
    List (String × JVal) :=
  if k = "volume" then
    match v, lookupKey cur "volume" with
    | JVal.obj vu, some (JVal.obj cv) =>
      setKey cur "volume" (JVal.obj (mergeVolume cv vu))
    | _, _ => cur
  else
    setKey cur k v

/-- The handler's whole update loop over the request document. -/
def mergeUpdates (cur updates : List (String × JVal)) :
    List (String × JVal) :=
  updates.foldl (fun acc p => applyUpdate acc p.1 p.2) cur

/-- What one call of `updateSettingsHandler` produces: the HTTP status of
the JSON response, the document written back to `config.toml` (when the
encode step ran and succeeded), and the process state after the call. -/
structure HandlerOutcome where
  status : Nat
  written : Option (List (String × JVal))
  state : SysState

/-- `updateSettingsHandler` from `src/ezan.go`.  `bindRes` is the outcome
of `BindJSON`, `readRes` of `os.ReadFile`, `parseRes` of the untyped
`toml.Decode`, `createOk`/`encodeOk` of `os.Create` and `Encode`; the
remaining oracles feed the `onUpdateSettings` call made on success. -/
def updateSettingsHandler (bindRes : Except String (List (String × JVal)))
    (readRes : Except String String)
    (parseRes : String → Except String (List (String × JVal)))
    (createOk encodeOk : Bool) (decodeRes : DecodeOutcome)
    (coordRes : Config → Except String Coordinates)
    (computeRes : Except String PrayerTimes)
    (tzRes : PrayerTimes → Except String PrayerTimes)
    (st : SysState) : HandlerOutcome :=
  match bindRes with
  | Except.error _ => { status := 400, written := none, state := st }
  | Except.ok updates =>
    match readRes with
    | Except.error _ => { status := 500, written := none, state := st }
    | Except.ok raw =>
      match parseRes raw with
      | Except.error _ => { status := 500, written := none, state := st }
      | Except.ok currentConfig =>
        let merged := mergeUpdates currentConfig updates
        if createOk = false then
          { status := 500, written := none, state := st }
        else if encodeOk = false then
          { status := 500, written := none, state := st }
        else
          { status := 200, written := some merged,
            state := onUpdateSettings decodeRes coordRes computeRes tzRes st }

/-- Setting a key makes it the one looked up afterwards. -/
theorem lookupKey_setKey_self (doc : List (String × JVal)) (k : String)
    (v : JVal) : lookupKey (setKey doc k v) k = some v := by
  induction doc with
  | nil => simp [setKey, lookupKey]
  | cons p rest ih =>
    by_cases h : p.1 = k
    · simp [setKey, lookupKey, h]
    · simp [setKey, lookupKey, h, ih]

/-- C8: the settings endpoint answers 400 to a malformed body and 500 to a
store read, parse, create or encode failure, all without writing or
triggering a reload; on success it persists the merged document (nested
volume entries merged in, other top-level keys overwritten) and runs the
reload-plus-rebuild sequence before answering 200. -/
theorem updateSettingsHandler_behavior
    (bindRes : Except String (List (String × JVal)))
    (readRes : Except String String)
    (parseRes : String → Except String (List (String × JVal)))
    (createOk encodeOk : Bool) (decodeRes : DecodeOutcome)
    (coordRes : Config → Except String Coordinates)
    (computeRes : Except String PrayerTimes)
    (tzRes : PrayerTimes → Except String PrayerTimes) (st : SysState) :
    (∀ e, bindRes = Except.error e →
      updateSettingsHandler bindRes readRes parseRes createOk encodeOk
          decodeRes coordRes computeRes tzRes st =
        { status := 400, written := none, state := st })
    ∧ (∀ u e, bindRes = Except.ok u → readRes = Except.error e →
      updateSettingsHandler bindRes readRes parseRes createOk encodeOk
          decodeRes coordRes computeRes tzRes st =
        { status := 500, written := none, state := st })
    ∧ (∀ u raw e, bindRes = Except.ok u → readRes = Except.ok raw →
        parseRes raw = Except.error e →
      updateSettingsHandler bindRes readRes parseRes createOk encodeOk
          decodeRes coordRes computeRes tzRes st =
        { status := 500, written := none, state := st })
    ∧ (∀ u raw cur, bindRes = Except.ok u → readRes = Except.ok raw →
        parseRes raw = Except.ok cur → (createOk = false ∨ encodeOk = false) →
      updateSettingsHandler bindRes readRes parseRes createOk encodeOk
          decodeRes coordRes computeRes tzRes st =
        { status := 500, written := none, state := st })
    ∧ (∀ u raw cur, bindRes = Except.ok u → readRes = Except.ok raw →
        parseRes raw = Except.ok cur → createOk = true → encodeOk = true →
      updateSettingsHandler bindRes readRes parseRes createOk encodeOk
          decodeRes coordRes computeRes tzRes st =
        { status := 200, written := some (mergeUpdates cur u),
          state := onUpdateSettings decodeRes coordRes computeRes tzRes st })
    ∧ (∀ (cur : List (String × JVal)) (k : String) (v : JVal),
        k ≠ "volume" → lookupKey (applyUpdate cur k v) k = some v)
    ∧ (∀ (cur : List (String × JVal)) (cv vu : List (String × JVal)),
        lookupKey cur "volume" = some (JVal.obj cv) →
        lookupKey (applyUpdate cur "volume" (JVal.obj vu)) "volume" =
          some (JVal.obj (mergeVolume cv vu))) := by
  refine ⟨?_, ?_, ?_, ?_, ?_, ?_, ?_⟩
  · intro e hb
    simp [updateSettingsHandler, hb]
  · intro u e hb hr
    simp [updateSettingsHandler, hb, hr]
  · intro u raw e hb hr hp
    simp [updateSettingsHandler, hb, hr, hp]
  · intro u raw cur hb hr hp hko
    rcases hko with hko | hko <;> subst hko <;>
      simp [updateSettingsHandler, hb, hr, hp]
  · intro u raw cur hb hr hp hc he
    subst hc
    subst he
    simp [updateSettingsHandler, hb, hr, hp]
  · intro cur k v hk
    simp [applyUpdate, hk, lookupKey_setKey_self]
  · intro cur cv vu hv
    simp [applyUpdate, hv, lookupKey_setKey_self]

/-- Witness for `updateSettingsHandler_behavior`: a concrete successful
request and a concrete volume merge. -/
theorem updateSettingsHandler_behavior_witness :
    updateSettingsHandler
        (Except.ok [("adhan_prayer", JVal.bool false),
          ("volume", JVal.obj [("fajr", JVal.num 0)])])
        (Except.ok "raw")
        (fun _ => Except.ok [("lan", JVal.num 52),
          ("volume", JVal.obj [("fajr", JVal.num 100),
            ("isha", JVal.num 90)])])
        true true (DecodeOutcome.ok cfgEx) (fun _ => Except.ok coordsEx)
        (Except.ok ptEx) (fun pt => Except.ok pt) stEx =
      { status := 200,
        written := some (mergeUpdates
          [("lan", JVal.num 52),
           ("volume", JVal.obj [("fajr", JVal.num 100),
             ("isha", JVal.num 90)])]
          [("adhan_prayer", JVal.bool false),
           ("volume", JVal.obj [("fajr", JVal.num 0)])]),
        state := onUpdateSettings (DecodeOutcome.ok cfgEx)
          (fun _ => Except.ok coordsEx) (Except.ok ptEx)
          (fun pt => Except.ok pt) stEx }
    ∧ lookupKey (applyUpdate [("lan", JVal.num 52)] "lan" (JVal.num 13))
        "lan" = some (JVal.num 13) :=
  ⟨(updateSettingsHandler_behavior
      (Except.ok [("adhan_prayer", JVal.bool false),
        ("volume", JVal.obj [("fajr", JVal.num 0)])])
      (Except.ok "raw")
      (fun _ => Except.ok [("lan", JVal.num 52),
        ("volume", JVal.obj [("fajr", JVal.num 100),
          ("isha", JVal.num 90)])])
      true true (DecodeOutcome.ok cfgEx) (fun _ => Except.ok coordsEx)
      (Except.ok ptEx) (fun pt => Except.ok pt) stEx).2.2.2.2.1
      [("adhan_prayer", JVal.bool false),
        ("volume", JVal.obj [("fajr", JVal.num 0)])]
      "raw"
      [("lan", JVal.num 52),
        ("volume", JVal.obj [("fajr", JVal.num 100),
          ("isha", JVal.num 90)])]
      rfl rfl rfl rfl rfl,
    (updateSettingsHandler_behavior
      (Except.ok [("adhan_prayer", JVal.bool false),
        ("volume", JVal.obj [("fajr", JVal.num 0)])])
      (Except.ok "raw")
      (fun _ => Except.ok [("lan", JVal.num 52),
        ("volume", JVal.obj [("fajr", JVal.num 100),
          ("isha", JVal.num 90)])])
      true true (DecodeOutcome.ok cfgEx) (fun _ => Except.ok coordsEx)
      (Except.ok ptEx) (fun pt => Except.ok pt) stEx).2.2.2.2.2.1
      [("lan", JVal.num 52)] "lan" (JVal.num 13) (by decide)⟩

/-- The steps `main` in `src/ezan.go` performs on its own goroutine, in
program order.  `log.Fatalf` terminates the process, modelled by
`fatalExit` cutting the trace short.  Scheduler ticks can only occur inside
`StartBlocking`, i.e. after `enterBlockingLoop`, because `gocron`'s
scheduler is created stopped and is only started by that call. -/
inductive MainEvent where
  | loadConfigCall (ok : Bool)
  | fatalExit
  | registerSettingsRoute
  | startHTTPServer
  | initCoordinates (ok : Bool)
  | registerMidnightJob
  | rebuildCall
  | enterBlockingLoop
deriving DecidableEq

/-- The trace of `main`, parameterised by whether the initial config load
and the initial coordinate validation succeed. -/
def mainTrace (loadOk coordsOk : Bool) : List MainEvent :=
  if loadOk = false then [MainEvent.loadConfigCall false, MainEvent.fatalExit]
  else
    MainEvent.loadConfigCall true :: MainEvent.registerSettingsRoute ::
      MainEvent.startHTTPServer ::
        (if coordsOk = false then
          [MainEvent.initCoordinates false, MainEvent.fatalExit]
        else
          [MainEvent.initCoordinates true, MainEvent.registerMidnightJob,
           MainEvent.rebuildCall, MainEvent.enterBlockingLoop])

/-- The scheduler contents at the moment `StartBlocking` is entered: the
midnight job registered by `main` plus whatever the synchronous initial
`updatePrayerTimes` call produced. -/
def mainSchedulerAtBlocking (computeRes : Except String PrayerTimes)
    (tzRes : PrayerTimes → Except String PrayerTimes) : List Job :=
  updatePrayerTimes computeRes tzRes [midnightJob]

/-- C9: every startup trace that reaches the blocking run loop performs the
rebuild exactly once, strictly before entering the loop (hence before any
scheduler tick, the first midnight trigger included), and when the
computation succeeds the five daily jobs are armed in the scheduler handed
to `StartBlocking`. -/
theorem main_rebuild_before_blocking (loadOk coordsOk : Bool)
    (computeRes : Except String PrayerTimes)
    (tzRes : PrayerTimes → Except String PrayerTimes) (pt0 pt : PrayerTimes)
    (hb : MainEvent.enterBlockingLoop ∈ mainTrace loadOk coordsOk) :
    (mainTrace loadOk coordsOk).count MainEvent.rebuildCall = 1
    ∧ ((mainTrace loadOk coordsOk).takeWhile
        (fun e => !(e == MainEvent.enterBlockingLoop))).count
          MainEvent.rebuildCall = 1
    ∧ (computeRes = Except.ok pt0 → tzRes pt0 = Except.ok pt →
        adhanJobs (mainSchedulerAtBlocking computeRes tzRes) =
          [mkAdhanJob "fajr" pt.fajr, mkAdhanJob "dhuhr" pt.dhuhr,
           mkAdhanJob "asr" pt.asr, mkAdhanJob "maghrib" pt.maghrib,
           mkAdhanJob "isha" pt.isha]) := by
  cases loadOk with
  | false => simp [mainTrace] at hb
  | true =>
    cases coordsOk with
    | false => simp [mainTrace] at hb
    | true =>
      refine ⟨by decide, by decide, ?_⟩
      intro hcompute htz
      subst hcompute
      exact adhanJobs_updatePrayerTimes_ok pt0 pt tzRes htz [midnightJob]

/-- Witness for `main_rebuild_before_blocking` on the successful startup
trace with a concrete schedule. -/
theorem main_rebuild_before_blocking_witness :
    MainEvent.enterBlockingLoop ∈ mainTrace true true
    ∧ (mainTrace true true).count MainEvent.rebuildCall = 1
    ∧ ((mainTrace true true).takeWhile
        (fun e => !(e == MainEvent.enterBlockingLoop))).count
          MainEvent.rebuildCall = 1
    ∧ ((Except.ok ptEx : Except String PrayerTimes) = Except.ok ptEx →
        (fun pt => Except.ok pt : PrayerTimes → Except String PrayerTimes)
            ptEx = Except.ok ptEx →
        adhanJobs (mainSchedulerAtBlocking (Except.ok ptEx)
            (fun pt => Except.ok pt)) =
          [mkAdhanJob "fajr" ptEx.fajr, mkAdhanJob "dhuhr" ptEx.dhuhr,
           mkAdhanJob "asr" ptEx.asr, mkAdhanJob "maghrib" ptEx.maghrib,
           mkAdhanJob "isha" ptEx.isha]) :=
  ⟨by decide,
    main_rebuild_before_blocking true true (Except.ok ptEx)
      (fun pt => Except.ok pt) ptEx ptEx (by decide)⟩

/-- A global config left partially overwritten by a unification failure:
the latitude key was decoded before the failing key. -/
def cfgHalfEx : Config := { cfgEx with lan := 999 }

/-- C3 fails as stated: `toml.DecodeFile` decodes in place into the live
global, so a decode failure at the unification stage leaves the active
config different from the one active before the reload; and in the
settings path the reload error is only logged — the endpoint still answers
200 with the reload silently skipped. -/
theorem reload_failure_counterexample :
    (loadConfig (DecodeOutcome.unifyError "toml: type mismatch" cfgHalfEx)
        cfgEx).2 ≠ cfgEx
    ∧ (updateSettingsHandler (Except.ok [("lan", JVal.num 13)])
        (Except.ok "raw") (fun _ => Except.ok [("lan", JVal.num 52)])
        true true (DecodeOutcome.parseError "bad toml")
        (fun _ => Except.ok coordsEx) (Except.ok ptEx)
        (fun pt => Except.ok pt) stEx).status = 200 := by
  constructor
  · intro h
    have : (999 : ℚ) = 52 := congrArg Config.lan h
    norm_num at this
  · rfl

/-- C3 amended: a TOML-syntax parse failure leaves the config exactly as it
was and the wrapped error is returned to `loadConfig`'s caller; but a
decode failure at the unification stage leaves the in-place-decoded global
wherever the decoder stopped, and in the settings-reload path the returned
error is only logged — `onUpdateSettings` swallows it (mutating nothing
beyond what the decode already wrote) and the settings endpoint answers 200
even though the reload failed. -/
theorem reload_failure_behavior :
    (∀ (e : String) (cfg : Config),
      loadConfig (DecodeOutcome.parseError e) cfg =
        (Except.error ("error loading config: " ++ e), cfg))
    ∧ (∀ (e : String) (c cfg : Config),
      loadConfig (DecodeOutcome.unifyError e c) cfg =
        (Except.error ("error loading config: " ++ e), c))
    ∧ (∀ (e : String) (coordRes : Config → Except String Coordinates)
        (computeRes : Except String PrayerTimes)
        (tzRes : PrayerTimes → Except String PrayerTimes) (st : SysState),
        onUpdateSettings (DecodeOutcome.parseError e) coordRes computeRes
          tzRes st = st)
    ∧ (∀ (e : String) (c : Config)
        (coordRes : Config → Except String Coordinates)
        (computeRes : Except String PrayerTimes)
        (tzRes : PrayerTimes → Except String PrayerTimes) (st : SysState),
        onUpdateSettings (DecodeOutcome.unifyError e c) coordRes computeRes
          tzRes st = { st with config := c })
    ∧ (∀ (u cur : List (String × JVal)) (raw e : String)
        (coordRes : Config → Except String Coordinates)
        (computeRes : Except String PrayerTimes)
        (tzRes : PrayerTimes → Except String PrayerTimes) (st : SysState),
        updateSettingsHandler (Except.ok u) (Except.ok raw)
            (fun _ => Except.ok cur) true true (DecodeOutcome.parseError e)
            coordRes computeRes tzRes st =
          { status := 200, written := some (mergeUpdates cur u),
            state := st }) :=
  ⟨fun _ _ => rfl, fun _ _ _ => rfl, fun _ _ _ _ _ => rfl,
    fun _ _ _ _ _ _ => rfl, fun _ _ _ _ _ _ _ _ => rfl⟩
